import Mathlib

/-!
Verification of the usage-accounting core of `openai_usage_monitor.py`:
shallow embedding of the SQLite-backed tracker (key registry, session
manager, usage events, alert engine, burn-rate estimator, reset
predictor) as pure Lean functions over explicit table states, plus
theorems settling the frozen claims about that code.

Modelling conventions:
- a table is a `List` of row structures, in insertion (rowid) order;
- SQL `NULL`-able columns are `Option`;
- token counts are `Nat` (the code only ever stores sums of token
  counts), dollar costs and rates are `Rat` (Python floats are used as
  exact arithmetic on the small literals involved);
- timestamps used for arithmetic are `Rat` minutes; calendar dates used
  for alert dedup are the `"%Y-%m-%d"` strings the code compares;
- `datetime.now()` is passed in explicitly as a parameter.
-/

namespace UsageMonitor

/-- Row of the `api_keys` table (`init_database`, lines 33-43 of
`openai_usage_monitor.py`).  `key_id` carries a SQL `UNIQUE` constraint;
`key_name` does not. -/
structure ApiKeyRow where
  key_id : String
  key_name : String
  key_description : String
  api_key_hash : String
  is_active : Bool
  deriving DecidableEq

/-- Row of the `usage_sessions` table (lines 45-61). -/
structure SessionRow where
  session_id : String
  key_id : Option String
  start_time : Rat
  end_time : Option Rat
  total_tokens : Nat
  prompt_tokens : Nat
  completion_tokens : Nat
  total_cost : Rat
  model : Option String
  is_active : Bool
  deriving DecidableEq

/-- Row of the `api_calls` table (lines 63-78). -/
structure ApiCallRow where
  session_id : String
  key_id : Option String
  timestamp : Rat
  model : String
  prompt_tokens : Nat
  completion_tokens : Nat
  total_tokens : Nat
  cost : Rat
  deriving DecidableEq

/-- Row of the `usage_alerts` table (lines 100-111).  `triggered_date`
models `DATE(triggered_at)`, the only part of the timestamp the alert
logic ever reads, as the `"%Y-%m-%d"` string the code compares. -/
structure AlertRow where
  key_id : Option String
  alert_type : String
  threshold_value : Rat
  current_value : Rat
  message : String
  is_active : Bool
  triggered_date : String
  deriving DecidableEq

/-- The `current_usage` dict handed to `check_and_create_alerts`;
`none` models an absent dict key (the code reads every field with
`dict.get` and a default). -/
structure Usage where
  tokens_used : Option Rat
  token_limit : Option Rat
  total_cost : Option Rat
  burn_rate : Option Rat
  deriving DecidableEq

/-- `pat` is a leading segment of `s` (helper for the `in` substring
tests of `check_and_create_alerts`). -/
def hasLead : List Char → List Char → Bool
  | [], _ => true
  | _ :: _, [] => false
  | p :: ps, c :: cs => p = c && hasLead ps cs

/-- `pat` occurs contiguously inside `s` (Python `pat in s` on strings). -/
def hasSub (pat : List Char) : List Char → Bool
  | [] => pat.isEmpty
  | c :: cs => hasLead pat (c :: cs) || hasSub pat cs

/-- Python substring test `pat in s`. -/
def strContainsSub (s pat : String) : Bool :=
  hasSub pat.toList s.toList

/-- The fixed `alerts_to_check` threshold table of
`check_and_create_alerts` (lines 722-729). -/
def alerts_to_check : List (String × Rat × String) :=
  [("token_usage_50", 0.5, "Token usage exceeded 50%"),
   ("token_usage_75", 0.75, "Token usage exceeded 75%"),
   ("token_usage_90", 0.9, "Token usage exceeded 90%"),
   ("cost_threshold_10", 10.0, "Monthly cost exceeded $10"),
   ("cost_threshold_50", 50.0, "Monthly cost exceeded $50"),
   ("high_burn_rate", 500.0, "High burn rate detected (>500 tokens/min)")]

/-- `usage_percentage` of `check_and_create_alerts` (lines 731-736):
`tokens_used / token_limit if token_limit > 0 else 0`, with dict
defaults `tokens_used = 0` and `token_limit = 1`. -/
def usage_percentage (u : Usage) : Rat :=
  let tokens_used := u.tokens_used.getD 0
  let token_limit := u.token_limit.getD 1
  if 0 < token_limit then tokens_used / token_limit else 0

/-- The metric an alert kind is compared against (the
`if 'token_usage' in alert_type ... elif ... elif ...` dispatch,
lines 742-750); `none` models the fall-through where `should_trigger`
stays `False`. -/
def alert_metric (alert_type : String) (u : Usage) : Option Rat :=
  if strContainsSub alert_type "token_usage" then some (usage_percentage u)
  else if strContainsSub alert_type "cost_threshold" then some (u.total_cost.getD 0)
  else if strContainsSub alert_type "burn_rate" then some (u.burn_rate.getD 0)
  else none

/-- `should_trigger` for one threshold-table entry (lines 739-750). -/
def should_trigger (alert_type : String) (threshold : Rat) (u : Usage) : Bool :=
  match alert_metric alert_type u with
  | some v => decide (threshold ≤ v)
  | none => false

/-- The dedup query (lines 754-758): `SELECT id FROM usage_alerts WHERE
alert_type = ? AND DATE(triggered_at) = ?` — note it does not filter by
`key_id`. -/
def alertExists (alerts : List AlertRow) (alert_type today : String) : Bool :=
  alerts.any (fun a => decide (a.alert_type = alert_type) && decide (a.triggered_date = today))

/-- One loop iteration's inserted row (lines 762-766): the `INSERT` names
no `key_id` column, so the stored credential reference is `NULL`. -/
def newAlertRow (alert_type : String) (threshold : Rat) (message : String)
    (u : Usage) (today : String) : AlertRow :=
  ⟨none, alert_type, threshold, (alert_metric alert_type u).getD 0, message, true, today⟩

/-- The `for alert_type, threshold, message in alerts_to_check` loop of
`check_and_create_alerts` (lines 738-766), folded over the remaining
table entries with the accumulated alert table. -/
def check_alerts_loop (today : String) (u : Usage) :
    List (String × Rat × String) → List AlertRow → List AlertRow
  | [], alerts => alerts
  | (alert_type, threshold, message) :: rest, alerts =>
    let alerts' :=
      if should_trigger alert_type threshold u && !alertExists alerts alert_type today then
        alerts ++ [newAlertRow alert_type threshold message u today]
      else alerts
    check_alerts_loop today u rest alerts'

/-- `check_and_create_alerts` (lines 716-769): evaluate every threshold
against `current_usage` and insert a row for each satisfied threshold
not yet fired today. -/
def check_and_create_alerts (alerts : List AlertRow) (current_usage : Usage)
    (today : String) : List AlertRow :=
  check_alerts_loop today current_usage alerts_to_check alerts

/-- Number of alert rows of a given kind carrying a given trigger date. -/
def alertCount (alerts : List AlertRow) (alert_type today : String) : Nat :=
  (alerts.filter (fun a => decide (a.alert_type = alert_type) && decide (a.triggered_date = today))).length

/-- The day-granularity dedup invariant: no two alert rows share both
kind and trigger date. -/
def DedupOK (alerts : List AlertRow) : Prop :=
  alerts.Pairwise (fun a b => ¬(a.alert_type = b.alert_type ∧ a.triggered_date = b.triggered_date))

/-- The fresh row inserted by `create_session` (lines 434-439): only
`session_id`, `key_id`, `start_time` and `is_active` are named in the
`INSERT`, the rest take their schema defaults. -/
def newSessionRow (session_id : String) (key_id : Option String) (now : Rat) : SessionRow :=
  ⟨session_id, key_id, now, none, 0, 0, 0, 0, none, true⟩

/-- The `UPDATE usage_sessions SET is_active = 0, end_time = ? WHERE
is_active = 1 AND key_id = ?` step of `create_session` (lines 420-432),
applied to one row; rows outside the credential scope are untouched
(the unscoped case is `key_id = none`, matching `key_id IS NULL`). -/
def closeScope (key_id : Option String) (now : Rat) (s : SessionRow) : SessionRow :=
  if s.is_active ∧ s.key_id = key_id then { s with is_active := false, end_time := some now }
  else s

/-- `create_session` (lines 408-444): close every active session in the
credential scope, then `INSERT OR REPLACE` the new row (the `REPLACE`
removes any existing row with the same `UNIQUE session_id`; the fresh
row lands at the end in rowid order). -/
def create_session (sessions : List SessionRow) (session_id : String)
    (key_id : Option String) (now : Rat) : List SessionRow :=
  ((sessions.map (closeScope key_id now)).filter (fun s => decide (s.session_id ≠ session_id)))
    ++ [newSessionRow session_id key_id now]

/-- Bool test: `s` is an active session of credential scope `key_id`. -/
def isActiveIn (key_id : Option String) (s : SessionRow) : Bool :=
  s.is_active && decide (s.key_id = key_id)

/-- The active sessions of one credential scope. -/
def activeSessions (sessions : List SessionRow) (key_id : Option String) : List SessionRow :=
  sessions.filter (isActiveIn key_id)

/-- `log_api_call` (lines 446-478): append one `api_calls` row with
`total_tokens = prompt_tokens + completion_tokens`, and in the same
transaction add the call's numbers to the owning session's running
totals and overwrite its last-seen model. -/
def log_api_call (calls : List ApiCallRow) (sessions : List SessionRow)
    (session_id : String) (model : String) (prompt_tokens completion_tokens : Nat)
    (cost : Rat) (key_id : Option String) (now : Rat) :
    List ApiCallRow × List SessionRow :=
  let total_tokens := prompt_tokens + completion_tokens
  (calls ++ [⟨session_id, key_id, now, model, prompt_tokens, completion_tokens, total_tokens, cost⟩],
   sessions.map (fun s =>
     if s.session_id = session_id then
       { s with
         total_tokens := s.total_tokens + total_tokens,
         prompt_tokens := s.prompt_tokens + prompt_tokens,
         completion_tokens := s.completion_tokens + completion_tokens,
         total_cost := s.total_cost + cost,
         model := some model }
     else s))

/-- Model of `_hash_api_key` (lines 190-192): a one-way hash of the
secret.  SHA-256 itself is an external library call; the embedding only
needs that something derived from the secret, not the secret field
itself, is stored. -/
def hash_api_key (api_key : String) : String :=
  "sha256:" ++ api_key

/-- `add_key` (lines 200-220): derive `key_id` from the current
timestamp string, insert, and turn `sqlite3.IntegrityError` into a
`ValueError` with no state change.  The only `UNIQUE` column of
`api_keys` is `key_id`, so the insert fails exactly when the derived
`key_id` already exists. -/
def add_key (keys : List ApiKeyRow) (api_key key_name key_description : String)
    (now_str : String) : Except String (String × List ApiKeyRow) :=
  let key_id := "key_" ++ now_str
  if keys.any (fun r => decide (r.key_id = key_id)) then
    Except.error ("Key with name " ++ key_name ++ " already exists")
  else
    Except.ok (key_id, keys ++ [⟨key_id, key_name, key_description, hash_api_key api_key, true⟩])

/-- The tables `remove_key` can see; it only ever issues a `DELETE
FROM api_keys`. -/
structure Database where
  api_keys : List ApiKeyRow
  usage_sessions : List SessionRow
  api_calls : List ApiCallRow
  deriving DecidableEq

/-- `remove_key` (lines 222-236): `DELETE FROM api_keys WHERE key_id = ?`
(or `key_name = ?`); raises when neither argument is given. -/
def remove_key (db : Database) (key_id : Option String) (key_name : Option String) :
    Except String Database :=
  match key_id with
  | some kid =>
    Except.ok { db with api_keys := db.api_keys.filter (fun r => decide (r.key_id ≠ kid)) }
  | none =>
    match key_name with
    | some name =>
      Except.ok { db with api_keys := db.api_keys.filter (fun r => decide (r.key_name ≠ name)) }
    | none => Except.error "Either key_id or key_name must be provided"

/-- `calculate_hourly_burn_rate` (lines 847-853): `0` on an empty
window, otherwise the sum of `call[5]` over the window divided by the
fixed denominator `60` (`current_time` is accepted and unused, exactly
as in the source).  The window rows come from `SELECT * FROM api_calls`
(line 393-397) whose column order, per the `CREATE TABLE` in
`init_database` (lines 63-78), is `id(0), session_id(1), key_id(2),
timestamp(3), model(4), prompt_tokens(5), completion_tokens(6),
total_tokens(7), cost(8), created_at(9)` — so index 5, which the
source's comment calls `total_tokens`, is in fact `prompt_tokens`; the
Python local is still named `total_tokens`, mirrored here. -/
def calculate_hourly_burn_rate (recent_calls : List ApiCallRow) (current_time : Rat) : Rat :=
  if recent_calls.isEmpty then 0
  else
    let total_tokens : Nat := (recent_calls.map (fun c => c.prompt_tokens)).sum
    if 0 < total_tokens then (total_tokens : Rat) / 60 else 0

/-- The `ORDER BY timestamp` of the burn-rate query inside
`update_daily_usage` (lines 519-529); events are `(total_tokens,
timestamp-in-minutes)` pairs. -/
def sortCallsByTime (calls : List (Nat × Rat)) : List (Nat × Rat) :=
  List.insertionSort (fun a b => a.2 ≤ b.2) calls

/-- The `for i in range(1, len(calls))` slope loop of
`update_daily_usage` (lines 535-543): for each adjacent pair with a
positive time delta, `tokens_diff / time_diff`. -/
def burn_rates_loop : List (Nat × Rat) → List Rat
  | [] => []
  | [_] => []
  | a :: b :: rest =>
    let time_diff := b.2 - a.2
    (if 0 < time_diff then [((b.1 : Rat) - (a.1 : Rat)) / time_diff] else [])
      ++ burn_rates_loop (b :: rest)

/-- The collected slope list of `update_daily_usage` (lines 531-543),
including the `if len(calls) > 1` guard. -/
def daily_burn_rates (calls : List (Nat × Rat)) : List Rat :=
  if 1 < calls.length then burn_rates_loop (sortCallsByTime calls) else []

/-- Follows the spec's words (§4.3 `daily_average_and_peak`): "for each
adjacent pair compute `delta_tokens / delta_minutes` (skip pairs with
non-positive time delta)" — stated over `zip`/`tail` to be compared with
the source-translated loop `burn_rates_loop`. -/
def spec_adjacent_slopes (l : List (Nat × Rat)) : List Rat :=
  (l.zip l.tail).filterMap (fun p =>
    if 0 < p.2.2 - p.1.2 then some (((p.2.1 : Rat) - (p.1.1 : Rat)) / (p.2.2 - p.1.2))
    else none)

/-- The `(avg_burn_rate, peak_burn_rate)` pair `update_daily_usage`
stores (lines 545-546): mean and Python `max` of the slope list, `(0, 0)`
when it is empty. -/
def daily_average_and_peak (calls : List (Nat × Rat)) : Rat × Rat :=
  let burn_rates := daily_burn_rates calls
  (if burn_rates.isEmpty then 0 else burn_rates.sum / burn_rates.length,
   match burn_rates with
   | [] => 0
   | r :: rs => rs.foldl max r)

/-- The predicted-depletion computation of the main loop (lines
1386-1390): linear extrapolation when both burn rate and remaining
tokens are positive, otherwise the reset time.  Times are `Rat`
minutes. -/
def predicted_end_time (current_time tokens_left burn_rate reset_time : Rat) : Rat :=
  if 0 < burn_rate ∧ 0 < tokens_left then current_time + tokens_left / burn_rate
  else reset_time

/-- A wall-clock datetime at minute granularity (the reset logic never
reads finer fields); `tz_offset` is the UTC offset in minutes of an
aware value, `none` for a naive one.  Timezones are modelled as fixed
UTC offsets: the claims only exercise DST-free zones. -/
structure DateTime where
  year : Int
  month : Nat
  day : Nat
  hour : Nat
  minute : Nat
  tz_offset : Option Int
  deriving DecidableEq

/-- Days since 1970-01-01 of a civil date (standard proleptic-Gregorian
day count, truncating `Int` division on the guarded non-negative
intermediates). -/
def daysFromCivil (y : Int) (m d : Nat) : Int :=
  let y : Int := y - (if m ≤ 2 then 1 else 0)
  let era : Int := (if 0 ≤ y then y else y - 399) / 400
  let yoe : Int := y - era * 400
  let mp : Int := if 2 < m then (m : Int) - 3 else (m : Int) + 9
  let doy : Int := (153 * mp + 2) / 5 + (d : Int) - 1
  let doe : Int := yoe * 365 + yoe / 4 - yoe / 100 + doy
  era * 146097 + doe - 719468

/-- Civil date of a day count since 1970-01-01 (inverse of
`daysFromCivil`, same standard algorithm). -/
def civilFromDays (z0 : Int) : Int × Nat × Nat :=
  let z : Int := z0 + 719468
  let era : Int := (if 0 ≤ z then z else z - 146096) / 146097
  let doe : Int := z - era * 146097
  let yoe : Int := (doe - doe / 1460 + doe / 36524 - doe / 146096) / 365
  let y : Int := yoe + era * 400
  let doy : Int := doe - (365 * yoe + yoe / 4 - yoe / 100)
  let mp : Int := (5 * doy + 2) / 153
  let d : Int := doy - (153 * mp + 2) / 5 + 1
  let m : Int := if mp < 10 then mp + 3 else mp - 9
  (y + (if m ≤ 2 then 1 else 0), m.toNat, d.toNat)

/-- Absolute UTC minutes of an aware datetime (a naive one is read as
UTC, matching the `getD 0`). -/
def toAbsMinutes (t : DateTime) : Int :=
  daysFromCivil t.year t.month t.day * 1440 + (t.hour : Int) * 60 + (t.minute : Int)
    - t.tz_offset.getD 0

/-- The aware datetime with UTC offset `off` (minutes) denoting the
absolute UTC minute `abs`. -/
def ofAbsMinutes (abs : Int) (off : Int) : DateTime :=
  let localMin : Int := abs + off
  let days : Int := localMin.fdiv 1440
  let rem : Int := localMin - 1440 * days
  let civil := civilFromDays days
  ⟨civil.1, civil.2.1, civil.2.2, (rem / 60).toNat, (rem % 60).toNat, some off⟩

/-- `datetime.astimezone` in the fixed-offset model: same instant,
re-expressed at offset `off` (the identity when the value already
carries that offset, as the real conversion is). -/
def astimezone (t : DateTime) (off : Int) : DateTime :=
  if t.tz_offset = some off then t else ofAbsMinutes (toAbsMinutes t) off

/-- The `pytz.timezone` lookups the embedding knows; both zones are
genuinely fixed-offset.  An absent name models
`pytz.exceptions.UnknownTimeZoneError`. -/
def tz_table : List (String × Int) :=
  [("UTC", 0), ("Asia/Tokyo", 540)]

/-- `pytz.timezone(timezone_str)` as an offset lookup. -/
def lookupTz (timezone_str : String) : Option Int :=
  (tz_table.find? (fun e => decide (e.1 = timezone_str))).map (fun e => e.2)

/-- `get_next_reset_time` (lines 856-882): resolve the timezone (UTC
fallback, with a warning, on an unknown name), view `current_time` in
that zone (localizing a naive value), take midnight of the first day of
the next month there — December rolls into January of the next year —
and convert back to the caller's offset when it differs.
`custom_reset_hour` is accepted and unused, exactly as in the source. -/
def get_next_reset_time (current_time : DateTime) (custom_reset_hour : Option Nat)
    (timezone_str : String) : DateTime :=
  let off : Int := (lookupTz timezone_str).getD 0
  let target_time : DateTime :=
    match current_time.tz_offset with
    | some _ => astimezone current_time off
    | none => { current_time with tz_offset := some off }
  let next_reset : DateTime :=
    if target_time.month = 12 then ⟨target_time.year + 1, 1, 1, 0, 0, some off⟩
    else ⟨target_time.year, target_time.month + 1, 1, 0, 0, some off⟩
  match current_time.tz_offset with
  | some o => if o ≠ off then astimezone next_reset o else next_reset
  | none => next_reset

/-! ## Theorems -/

/-- C6 (code bug): `calculate_hourly_burn_rate` does divide by the
fixed denominator 60 and does return exactly 0 on an empty window, but
the quantity it sums is `call[5]` of the `SELECT *` row —
`prompt_tokens` in the column order of the `api_calls` table this file
creates — not `total_tokens` as its own comment (and the claim) say: a
window holding one call with 100 prompt and 50 completion tokens yields
100/60, not the claimed (100+50)/60. -/
theorem calculate_hourly_burn_rate_prompt_only :
    (∀ (recent_calls : List ApiCallRow) (current_time : Rat),
      calculate_hourly_burn_rate recent_calls current_time
        = (((recent_calls.map (fun c => c.prompt_tokens)).sum : Nat) : Rat) / 60)
    ∧ calculate_hourly_burn_rate [] 0 = 0
    ∧ calculate_hourly_burn_rate [⟨"s1", none, 0, "gpt-4", 100, 50, 150, 1⟩] 0 = 100 / 60
    ∧ calculate_hourly_burn_rate [⟨"s1", none, 0, "gpt-4", 100, 50, 150, 1⟩] 0
        ≠ (((([⟨"s1", none, 0, "gpt-4", 100, 50, 150, 1⟩] : List ApiCallRow).map
            (fun c => c.total_tokens)).sum : Nat) : Rat) / 60 := by
  have hgen : ∀ (recent_calls : List ApiCallRow) (current_time : Rat),
      calculate_hourly_burn_rate recent_calls current_time
        = (((recent_calls.map (fun c => c.prompt_tokens)).sum : Nat) : Rat) / 60 := by
    intro recent_calls current_time
    unfold calculate_hourly_burn_rate
    rcases recent_calls with _ | ⟨c, cs⟩
    · simp
    · simp only [List.isEmpty_cons, Bool.false_eq_true, if_false]
      by_cases h : 0 < ((c :: cs).map (fun c => c.prompt_tokens)).sum
      · rw [if_pos h]
      · rw [if_neg h]
        have h0 : ((c :: cs).map (fun c => c.prompt_tokens)).sum = 0 := by omega
        rw [h0]
        norm_num
  refine ⟨hgen, rfl, ?_, ?_⟩
  · rw [hgen]
    norm_num [List.map_cons, List.map_nil, List.sum_cons, List.sum_nil]
  · rw [hgen]
    norm_num [List.map_cons, List.map_nil, List.sum_cons, List.sum_nil]

/-- C9: `predicted_end_time` extrapolates `now + tokens_left / burn_rate`
exactly when both the burn rate and the remaining tokens are positive,
and returns the reset time in every other case; in particular a zero
burn rate always yields the reset time. -/
theorem predicted_end_time_spec (current_time tokens_left burn_rate reset_time : Rat) :
    (0 < burn_rate ∧ 0 < tokens_left →
      predicted_end_time current_time tokens_left burn_rate reset_time
        = current_time + tokens_left / burn_rate)
    ∧ (¬(0 < burn_rate ∧ 0 < tokens_left) →
      predicted_end_time current_time tokens_left burn_rate reset_time = reset_time)
    ∧ (burn_rate = 0 →
      predicted_end_time current_time tokens_left burn_rate reset_time = reset_time) := by
  refine ⟨fun h => ?_, fun h => ?_, fun h => ?_⟩
  · unfold predicted_end_time
    rw [if_pos h]
  · unfold predicted_end_time
    rw [if_neg h]
  · unfold predicted_end_time
    rw [if_neg (by rw [h]; simp)]

/-- Witness for C9 at concrete inputs: positive rate and remainder
extrapolate, zero rate returns the reset time. -/
theorem predicted_end_time_spec_witness :
    predicted_end_time 0 100 10 500 = 0 + 100 / 10
    ∧ predicted_end_time 0 100 0 500 = 500 :=
  ⟨(predicted_end_time_spec 0 100 10 500).1 (by norm_num),
   (predicted_end_time_spec 0 100 0 500).2.2 rfl⟩

/-- C3 (code bug): `api_keys` has no uniqueness constraint on
`key_name`, so `add_key` called twice with the same display name (at
different derived timestamps) succeeds both times and leaves two
credential rows with the same name — the `IntegrityError` branch whose
message blames a duplicate *name* can only fire on a duplicate derived
`key_id`. -/
theorem add_key_duplicate_name_accepted :
    add_key [] "sk-first" "alice" "first key" "20240601_100000"
      = Except.ok ("key_20240601_100000",
          [⟨"key_20240601_100000", "alice", "first key", "sha256:sk-first", true⟩])
    ∧ add_key [⟨"key_20240601_100000", "alice", "first key", "sha256:sk-first", true⟩]
        "sk-second" "alice" "second key" "20240601_100001"
      = Except.ok ("key_20240601_100001",
          [⟨"key_20240601_100000", "alice", "first key", "sha256:sk-first", true⟩,
           ⟨"key_20240601_100001", "alice", "second key", "sha256:sk-second", true⟩]) := by
  constructor <;> rfl

/-- C4 (counterexample): `remove_key` issues a hard `DELETE` — after
removing the only credential, no row of `api_keys` remains at all, so
no row with `is_active = false` exists either. -/
theorem remove_key_hard_deletes :
    remove_key ⟨[⟨"key_1", "alice", "", "sha256:sk", true⟩], [], []⟩ (some "key_1") none
      = Except.ok ⟨[], [], []⟩ := by
  rfl

/-- C4 (amended): removing a credential by id hard-deletes its
`api_keys` row — afterwards no row with that id exists, all other
credential rows survive, and the sessions and events tables are left
untouched (so stored references to the removed id remain in place). -/
theorem remove_key_spec (db : Database) (kid : String) :
    ∃ db', remove_key db (some kid) none = Except.ok db'
      ∧ (∀ r ∈ db'.api_keys, r.key_id ≠ kid)
      ∧ (∀ r ∈ db.api_keys, r.key_id ≠ kid → r ∈ db'.api_keys)
      ∧ db'.usage_sessions = db.usage_sessions
      ∧ db'.api_calls = db.api_calls := by
  refine ⟨_, rfl, ?_, ?_, rfl, rfl⟩
  · intro r hr
    have h := (List.mem_filter.mp hr).2
    simpa using h
  · intro r hr hne
    exact List.mem_filter.mpr ⟨hr, by simpa using hne⟩

/-- Witness for C4's amended claim at a concrete two-credential store. -/
theorem remove_key_spec_witness :
    ∃ db', remove_key ⟨[⟨"key_1", "alice", "", "sha256:a", true⟩,
                        ⟨"key_2", "bob", "", "sha256:b", true⟩], [], []⟩ (some "key_1") none
        = Except.ok db'
      ∧ (∀ r ∈ db'.api_keys, r.key_id ≠ "key_1")
      ∧ (∀ r ∈ ([⟨"key_1", "alice", "", "sha256:a", true⟩,
                  ⟨"key_2", "bob", "", "sha256:b", true⟩] : List ApiKeyRow),
           r.key_id ≠ "key_1" → r ∈ db'.api_keys)
      ∧ db'.usage_sessions = ([] : List SessionRow)
      ∧ db'.api_calls = ([] : List ApiCallRow) :=
  remove_key_spec ⟨[⟨"key_1", "alice", "", "sha256:a", true⟩,
                    ⟨"key_2", "bob", "", "sha256:b", true⟩], [], []⟩ "key_1"

/-- C5: `log_api_call` appends exactly one event row whose
`total_tokens` is `prompt_tokens + completion_tokens`, adds exactly
those numbers and the cost to the owning session's running totals while
overwriting its last-seen model, leaves sessions with a different id
unchanged, and preserves the invariant that every stored event satisfies
`total_tokens = prompt_tokens + completion_tokens`. -/
theorem log_api_call_spec (calls : List ApiCallRow) (sessions : List SessionRow)
    (sid model : String) (p c : Nat) (cost : Rat) (k : Option String) (now : Rat)
    (s0 : SessionRow) (hs0 : s0 ∈ sessions) (hsid : s0.session_id = sid) :
    (log_api_call calls sessions sid model p c cost k now).1
      = calls ++ [⟨sid, k, now, model, p, c, p + c, cost⟩]
    ∧ { s0 with total_tokens := s0.total_tokens + (p + c),
                prompt_tokens := s0.prompt_tokens + p,
                completion_tokens := s0.completion_tokens + c,
                total_cost := s0.total_cost + cost,
                model := some model } ∈ (log_api_call calls sessions sid model p c cost k now).2
    ∧ (∀ t ∈ sessions, t.session_id ≠ sid →
        t ∈ (log_api_call calls sessions sid model p c cost k now).2)
    ∧ (log_api_call calls sessions sid model p c cost k now).2.length = sessions.length
    ∧ ((∀ e ∈ calls, e.total_tokens = e.prompt_tokens + e.completion_tokens) →
        ∀ e ∈ (log_api_call calls sessions sid model p c cost k now).1,
          e.total_tokens = e.prompt_tokens + e.completion_tokens) := by
  refine ⟨rfl, ?_, ?_, List.length_map _ _, ?_⟩
  · have h := List.mem_map_of_mem (f := fun s : SessionRow =>
      if s.session_id = sid then
        { s with
          total_tokens := s.total_tokens + (p + c),
          prompt_tokens := s.prompt_tokens + p,
          completion_tokens := s.completion_tokens + c,
          total_cost := s.total_cost + cost,
          model := some model }
      else s) hs0
    dsimp only at h
    rw [if_pos hsid] at h
    exact h
  · intro t ht hne
    have h := List.mem_map_of_mem (f := fun s : SessionRow =>
      if s.session_id = sid then
        { s with
          total_tokens := s.total_tokens + (p + c),
          prompt_tokens := s.prompt_tokens + p,
          completion_tokens := s.completion_tokens + c,
          total_cost := s.total_cost + cost,
          model := some model }
      else s) ht
    dsimp only at h
    rw [if_neg hne] at h
    exact h
  · intro hInv e he
    rcases List.mem_append.mp he with h | h
    · exact hInv e h
    · rcases List.mem_singleton.mp h with rfl
      rfl

/-- Witness for C5 at a concrete one-session store. -/
theorem log_api_call_spec_witness :
    (log_api_call [] [⟨"s1", some "K", 0, none, 0, 0, 0, 0, none, true⟩]
        "s1" "gpt-4" 100 50 2 (some "K") 30).1
      = [⟨"s1", some "K", 30, "gpt-4", 100, 50, 100 + 50, 2⟩]
    ∧ (⟨"s1", some "K", 0, none, 0 + (100 + 50), 0 + 100, 0 + 50, 0 + 2, some "gpt-4", true⟩ : SessionRow)
        ∈ (log_api_call [] [⟨"s1", some "K", 0, none, 0, 0, 0, 0, none, true⟩]
            "s1" "gpt-4" 100 50 2 (some "K") 30).2
    ∧ ∀ e ∈ (log_api_call [] [⟨"s1", some "K", 0, none, 0, 0, 0, 0, none, true⟩]
            "s1" "gpt-4" 100 50 2 (some "K") 30).1,
        e.total_tokens = e.prompt_tokens + e.completion_tokens := by
  have h := log_api_call_spec [] [⟨"s1", some "K", 0, none, 0, 0, 0, 0, none, true⟩]
    "s1" "gpt-4" 100 50 2 (some "K") 30
    ⟨"s1", some "K", 0, none, 0, 0, 0, 0, none, true⟩ (List.mem_singleton.mpr rfl) rfl
  exact ⟨h.1, h.2.1, h.2.2.2.2 (by intro e he; cases he)⟩

theorem closeScope_session_id (k : Option String) (now : Rat) (s : SessionRow) :
    (closeScope k now s).session_id = s.session_id := by
  unfold closeScope
  split <;> rfl

theorem isActiveIn_closeScope_self (k : Option String) (now : Rat) (s : SessionRow) :
    isActiveIn k (closeScope k now s) = false := by
  unfold closeScope
  by_cases h : (s.is_active : Prop) ∧ s.key_id = k
  · rw [if_pos h]
    simp [isActiveIn]
  · rw [if_neg h]
    simp only [isActiveIn, Bool.and_eq_false_iff]
    rcases not_and_or.mp h with h1 | h1
    · exact Or.inl (Bool.of_not_eq_true h1)
    · exact Or.inr (decide_eq_false h1)

theorem isActiveIn_closeScope_other (k k' : Option String) (hkk : k' ≠ k) (now : Rat)
    (s : SessionRow) : isActiveIn k' (closeScope k now s) = isActiveIn k' s := by
  unfold closeScope
  by_cases h : (s.is_active : Prop) ∧ s.key_id = k
  · rw [if_pos h]
    have hk : s.key_id ≠ k' := by rw [h.2]; exact fun hc => hkk hc.symm
    simp [isActiveIn, hk]
  · rw [if_neg h]

theorem closeScope_eq_self_of_activeIn_other (k k' : Option String) (hkk : k' ≠ k)
    (now : Rat) (s : SessionRow) (hs : isActiveIn k' s = true) :
    closeScope k now s = s := by
  unfold closeScope
  rw [if_neg]
  intro hc
  simp only [isActiveIn, Bool.and_eq_true, decide_eq_true_eq] at hs
  exact hkk (hs.2.symm.trans hc.2)

theorem filter_activeIn_map_closeScope_self (k : Option String) (now : Rat)
    (l : List SessionRow) :
    (l.map (closeScope k now)).filter (isActiveIn k) = [] := by
  induction l with
  | nil => rfl
  | cons s t ih =>
    simp only [List.map_cons, List.filter_cons, isActiveIn_closeScope_self,
      Bool.false_eq_true, if_false]
    exact ih

theorem filter_activeIn_map_closeScope_other (k k' : Option String) (hkk : k' ≠ k)
    (now : Rat) (l : List SessionRow) :
    (l.map (closeScope k now)).filter (isActiveIn k') = l.filter (isActiveIn k') := by
  induction l with
  | nil => rfl
  | cons s t ih =>
    simp only [List.map_cons, List.filter_cons, isActiveIn_closeScope_other k k' hkk now s]
    by_cases hs : isActiveIn k' s = true
    · rw [if_pos hs, if_pos hs, ih,
        closeScope_eq_self_of_activeIn_other k k' hkk now s hs]
    · rw [if_neg hs, if_neg hs, ih]

/-- C2: for every credential scope, `create_session` leaves at most one
active session; the scope of the new session ends with exactly the new
row active, every previously active session of that scope reappears
closed with its end time set, and every session that was not active in
that scope (in particular every session of a different scope) survives
unchanged. -/
theorem create_session_single_active (sessions : List SessionRow) (sid : String)
    (k : Option String) (now : Rat)
    (hInv : ∀ k', (activeSessions sessions k').length ≤ 1)
    (hfresh : ∀ s ∈ sessions, s.session_id ≠ sid) :
    (∀ k', (activeSessions (create_session sessions sid k now) k').length ≤ 1)
    ∧ activeSessions (create_session sessions sid k now) k = [newSessionRow sid k now]
    ∧ (∀ A ∈ sessions, A.is_active → A.key_id = k →
        { A with is_active := false, end_time := some now }
          ∈ create_session sessions sid k now)
    ∧ (∀ B ∈ sessions, ¬((B.is_active : Prop) ∧ B.key_id = k) →
        B ∈ create_session sessions sid k now) := by
  have hfilter : (sessions.map (closeScope k now)).filter
      (fun s => decide (s.session_id ≠ sid)) = sessions.map (closeScope k now) := by
    rw [List.filter_eq_self]
    intro a ha
    rcases List.mem_map.mp ha with ⟨s, hs, rfl⟩
    rw [decide_eq_true_iff, closeScope_session_id]
    exact hfresh s hs
  have hcs : create_session sessions sid k now
      = sessions.map (closeScope k now) ++ [newSessionRow sid k now] := by
    unfold create_session
    rw [hfilter]
  have hnew_self : isActiveIn k (newSessionRow sid k now) = true := by
    simp [isActiveIn, newSessionRow]
  refine ⟨?_, ?_, ?_, ?_⟩
  · intro k'
    rw [hcs]
    unfold activeSessions
    rw [List.filter_append]
    by_cases hk : k' = k
    · subst hk
      rw [filter_activeIn_map_closeScope_self]
      simp [List.filter_cons, hnew_self]
    · rw [filter_activeIn_map_closeScope_other k k' hk now]
      have hnew : isActiveIn k' (newSessionRow sid k now) = false := by
        simp only [isActiveIn, newSessionRow, Bool.and_eq_false_iff]
        exact Or.inr (decide_eq_false (fun hc => hk hc.symm))
      simp only [List.filter_cons, hnew, Bool.false_eq_true, if_false, List.filter_nil]
      rw [List.append_nil]
      exact hInv k'
  · rw [hcs]
    unfold activeSessions
    rw [List.filter_append, filter_activeIn_map_closeScope_self]
    simp only [List.nil_append, List.filter_cons, hnew_self, if_true, List.filter_nil]
  · intro A hA hAact hAkey
    rw [hcs]
    apply List.mem_append_left
    have h := List.mem_map_of_mem (f := closeScope k now) hA
    have hfA : closeScope k now A = { A with is_active := false, end_time := some now } := by
      unfold closeScope
      rw [if_pos ⟨hAact, hAkey⟩]
    rw [hfA] at h
    exact h
  · intro B hB hBn
    rw [hcs]
    apply List.mem_append_left
    have h := List.mem_map_of_mem (f := closeScope k now) hB
    have hfB : closeScope k now B = B := by
      unfold closeScope
      rw [if_neg hBn]
    rw [hfB] at h
    exact h

/-- Witness for C2: one active session for credential `K`; opening a
fresh session for `K` closes it (end time set) and leaves the new row as
the sole active session of the scope. -/
theorem create_session_single_active_witness :
    activeSessions (create_session [⟨"s1", some "K", 0, none, 0, 0, 0, 0, none, true⟩]
        "s2" (some "K") 5) (some "K") = [newSessionRow "s2" (some "K") 5]
    ∧ (⟨"s1", some "K", 0, some 5, 0, 0, 0, 0, none, false⟩ : SessionRow)
        ∈ create_session [⟨"s1", some "K", 0, none, 0, 0, 0, 0, none, true⟩]
            "s2" (some "K") 5 := by
  have h := create_session_single_active
    [⟨"s1", some "K", 0, none, 0, 0, 0, 0, none, true⟩] "s2" (some "K") 5
    (fun k' => List.length_filter_le _ _)
    (by intro s hs; rcases List.mem_singleton.mp hs with rfl; decide)
  exact ⟨h.2.1, h.2.2.1 ⟨"s1", some "K", 0, none, 0, 0, 0, 0, none, true⟩
    (List.mem_singleton.mpr rfl) rfl rfl⟩

theorem burn_rates_loop_eq_spec (l : List (Nat × Rat)) :
    burn_rates_loop l = spec_adjacent_slopes l := by
  induction l with
  | nil => rfl
  | cons a t ih =>
    cases t with
    | nil => rfl
    | cons b rest =>
      show (if 0 < b.2 - a.2 then [((b.1 : Rat) - (a.1 : Rat)) / (b.2 - a.2)] else [])
          ++ burn_rates_loop (b :: rest) = spec_adjacent_slopes (a :: b :: rest)
      rw [ih]
      unfold spec_adjacent_slopes
      simp only [List.tail_cons, List.zip_cons_cons, List.filterMap_cons]
      by_cases h : 0 < b.2 - a.2
      · rw [if_pos h, if_pos h]
        rfl
      · rw [if_neg h, if_neg h]
        rfl

theorem foldl_max_mem (rs : List Rat) (r : Rat) : rs.foldl max r ∈ r :: rs := by
  induction rs generalizing r with
  | nil => exact List.mem_singleton.mpr rfl
  | cons b t ih =>
    show t.foldl max (max r b) ∈ r :: b :: t
    rcases List.mem_cons.mp (ih (max r b)) with h | h
    · rcases max_choice r b with hm | hm
      · exact List.mem_cons.mpr (Or.inl (h.trans hm))
      · exact List.mem_cons.mpr (Or.inr (List.mem_cons.mpr (Or.inl (h.trans hm))))
    · exact List.mem_cons.mpr (Or.inr (List.mem_cons.mpr (Or.inr h)))

theorem le_foldl_max_init (t : List Rat) (a r : Rat) (h : a ≤ r) : a ≤ t.foldl max r := by
  induction t generalizing r with
  | nil => exact h
  | cons b s ih => exact ih (max r b) (le_trans h (le_max_left r b))

theorem le_foldl_max (rs : List Rat) (r x : Rat) (hx : x ∈ r :: rs) :
    x ≤ rs.foldl max r := by
  induction rs generalizing r with
  | nil =>
    rcases List.mem_singleton.mp hx with rfl
    exact le_refl x
  | cons b t ih =>
    show x ≤ t.foldl max (max r b)
    rcases List.mem_cons.mp hx with rfl | h
    · exact le_foldl_max_init t x (max x b) (le_max_left x b)
    · rcases List.mem_cons.mp h with rfl | h
      · exact le_foldl_max_init t x (max r x) (le_max_right r x)
      · exact ih (max r b) (List.mem_cons.mpr (Or.inr h))

/-- C7: the daily burn-rate computation of `update_daily_usage` sorts
the date's events by timestamp ascending, takes the slope
`delta_tokens / delta_minutes` of each adjacent pair, skipping exactly
the pairs with a non-positive time delta (the spec-side reformulation
`spec_adjacent_slopes`), and returns the arithmetic mean and the maximum
of the remaining slopes; with fewer than two events it returns `(0, 0)`. -/
theorem daily_average_and_peak_spec (calls : List (Nat × Rat)) :
    (calls.length < 2 → daily_average_and_peak calls = (0, 0))
    ∧ daily_burn_rates calls
        = (if 1 < calls.length then spec_adjacent_slopes (sortCallsByTime calls) else [])
    ∧ (sortCallsByTime calls).Pairwise (fun a b => a.2 ≤ b.2)
    ∧ (sortCallsByTime calls).Perm calls
    ∧ (daily_burn_rates calls ≠ [] →
        (daily_average_and_peak calls).1
            = (daily_burn_rates calls).sum / ((daily_burn_rates calls).length : Rat)
        ∧ (daily_average_and_peak calls).2 ∈ daily_burn_rates calls
        ∧ ∀ r ∈ daily_burn_rates calls, r ≤ (daily_average_and_peak calls).2)
    ∧ (daily_burn_rates calls = [] → daily_average_and_peak calls = (0, 0)) := by
  refine ⟨?_, ?_, ?_, ?_, ?_, ?_⟩
  · intro hlen
    have h2 : ¬(1 < calls.length) := by omega
    unfold daily_average_and_peak daily_burn_rates
    rw [if_neg h2]
    rfl
  · unfold daily_burn_rates
    by_cases h : 1 < calls.length
    · rw [if_pos h, if_pos h, burn_rates_loop_eq_spec]
    · rw [if_neg h, if_neg h]
  · haveI htot : IsTotal (Nat × Rat) (fun a b => a.2 ≤ b.2) := ⟨fun a b => le_total a.2 b.2⟩
    haveI htr : IsTrans (Nat × Rat) (fun a b => a.2 ≤ b.2) :=
      ⟨fun _ _ _ hab hbc => le_trans hab hbc⟩
    exact List.sorted_insertionSort (fun a b => a.2 ≤ b.2) calls
  · exact List.perm_insertionSort (fun a b => a.2 ≤ b.2) calls
  · intro hne
    constructor
    · unfold daily_average_and_peak
      rcases hrs : daily_burn_rates calls with _ | ⟨r, rs⟩
      · exact absurd hrs hne
      · simp only [hrs, List.isEmpty_cons, Bool.false_eq_true, if_false]
    constructor
    · unfold daily_average_and_peak
      rcases hrs : daily_burn_rates calls with _ | ⟨r, rs⟩
      · exact absurd hrs hne
      · exact foldl_max_mem rs r
    · intro x hx
      unfold daily_average_and_peak
      rcases hrs : daily_burn_rates calls with _ | ⟨r, rs⟩
      · exact absurd hrs hne
      · rw [hrs] at hx
        exact le_foldl_max rs r x hx
  · intro h0
    unfold daily_average_and_peak
    rw [h0]
    rfl

/-- Witness for C7: three events with slopes `10` and `-15`; average
`-5/2`, peak `10`; and a single event yields `(0, 0)`. -/
theorem daily_average_and_peak_spec_witness :
    (daily_average_and_peak [(100, 0), (200, 10), (50, 20)]).1
      = (daily_burn_rates [(100, 0), (200, 10), (50, 20)]).sum
          / ((daily_burn_rates [(100, 0), (200, 10), (50, 20)]).length : Rat)
    ∧ (daily_average_and_peak [(100, 0), (200, 10), (50, 20)]).2
        ∈ daily_burn_rates [(100, 0), (200, 10), (50, 20)]
    ∧ daily_average_and_peak [(42, 3)] = (0, 0) := by
  have h := daily_average_and_peak_spec [(100, 0), (200, 10), (50, 20)]
  have hval : daily_burn_rates [(100, 0), (200, 10), (50, 20)] = [10, -15] := by
    unfold daily_burn_rates
    rw [if_pos (by norm_num),
      (by decide : sortCallsByTime [(100, 0), (200, 10), (50, 20)]
        = [(100, 0), (200, 10), (50, 20)])]
    norm_num [burn_rates_loop]
  have hne : daily_burn_rates [(100, 0), (200, 10), (50, 20)] ≠ [] := by
    rw [hval]
    simp
  have h5 := h.2.2.2.2.1 hne
  exact ⟨h5.1, h5.2.1, (daily_average_and_peak_spec [(42, 3)]).1 (by decide)⟩

theorem check_alerts_loop_cons (today : String) (u : Usage) (atype : String) (τ : Rat)
    (msg : String) (rest : List (String × Rat × String)) (alerts : List AlertRow) :
    check_alerts_loop today u ((atype, τ, msg) :: rest) alerts =
      check_alerts_loop today u rest
        (if should_trigger atype τ u && !alertExists alerts atype today then
          alerts ++ [newAlertRow atype τ msg u today]
        else alerts) := rfl

theorem alertCount_append (l₁ l₂ : List AlertRow) (k d : String) :
    alertCount (l₁ ++ l₂) k d = alertCount l₁ k d + alertCount l₂ k d := by
  unfold alertCount
  rw [List.filter_append, List.length_append]

theorem alertExists_append (l₁ l₂ : List AlertRow) (k d : String) :
    alertExists (l₁ ++ l₂) k d = (alertExists l₁ k d || alertExists l₂ k d) := by
  unfold alertExists
  rw [List.any_append]

theorem alertExists_eq_true_iff (alerts : List AlertRow) (k d : String) :
    alertExists alerts k d = true ↔ alertCount alerts k d ≠ 0 := by
  unfold alertExists alertCount
  rw [List.any_eq_true]
  constructor
  · rintro ⟨a, ha, hp⟩ h0
    rw [List.length_eq_zero] at h0
    exact absurd (List.mem_filter.mpr ⟨ha, hp⟩) (by rw [h0]; exact List.not_mem_nil a)
  · intro h0
    have hne : alerts.filter
        (fun a => decide (a.alert_type = k) && decide (a.triggered_date = d)) ≠ [] := by
      intro hnil
      exact h0 (by rw [hnil]; rfl)
    rcases List.exists_mem_of_ne_nil _ hne with ⟨a, ha⟩
    exact ⟨a, (List.mem_filter.mp ha).1, (List.mem_filter.mp ha).2⟩

theorem alertCount_singleton_other (atype τ msg u today k d)
    (h : ¬(atype = k ∧ today = d)) :
    alertCount [newAlertRow atype τ msg u today] k d = 0 := by
  unfold alertCount newAlertRow
  simp only [List.filter_cons, List.filter_nil, Bool.and_eq_true, decide_eq_true_eq]
  rw [if_neg]
  · rfl
  · exact fun hc => h hc

theorem alertCount_loop_other_date (today : String) (u : Usage) :
    ∀ (entries : List (String × Rat × String)) (alerts : List AlertRow) (k d : String),
      d ≠ today →
      alertCount (check_alerts_loop today u entries alerts) k d = alertCount alerts k d := by
  intro entries
  induction entries with
  | nil => intro alerts k d _; rfl
  | cons e rest ih =>
    intro alerts k d hd
    obtain ⟨atype, τ, msg⟩ := e
    rw [check_alerts_loop_cons]
    by_cases hc : (should_trigger atype τ u && !alertExists alerts atype today) = true
    · rw [if_pos hc, ih _ k d hd, alertCount_append,
        alertCount_singleton_other atype τ msg u today k d (fun hx => hd hx.2.symm)]
      rfl
    · rw [if_neg hc, ih _ k d hd]

theorem alertCount_loop_not_mem (today : String) (u : Usage) :
    ∀ (entries : List (String × Rat × String)) (alerts : List AlertRow) (k : String),
      k ∉ entries.map (fun e => e.1) →
      alertCount (check_alerts_loop today u entries alerts) k today = alertCount alerts k today := by
  intro entries
  induction entries with
  | nil => intro alerts k _; rfl
  | cons e rest ih =>
    intro alerts k hk
    obtain ⟨atype, τ, msg⟩ := e
    rw [List.map_cons] at hk
    have hk1 : ¬(atype = k) := fun h => hk (List.mem_cons.mpr (Or.inl h.symm))
    have hk2 : k ∉ rest.map (fun e => e.1) := fun h => hk (List.mem_cons.mpr (Or.inr h))
    rw [check_alerts_loop_cons]
    by_cases hc : (should_trigger atype τ u && !alertExists alerts atype today) = true
    · rw [if_pos hc, ih _ k hk2, alertCount_append,
        alertCount_singleton_other atype τ msg u today k today (fun hx => hk1 hx.1)]
      rfl
    · rw [if_neg hc, ih _ k hk2]

theorem alertCount_singleton_self (atype τ msg u today) :
    alertCount [newAlertRow atype τ msg u today] atype today = 1 := by
  unfold alertCount newAlertRow
  simp

theorem cond_parts {x y : Bool} (hc : (x && !y) = true) : x = true ∧ y = false := by
  rcases hx : x
  · rw [hx] at hc; cases hc
  · rcases hy : y
    · exact ⟨rfl, rfl⟩
    · rw [hx, hy] at hc; cases hc

theorem alertCount_loop_mem (today : String) (u : Usage) (k : String) (τ : Rat) (msg : String) :
    ∀ (entries : List (String × Rat × String)) (alerts : List AlertRow),
      (entries.map (fun e => e.1)).Nodup → (k, τ, msg) ∈ entries →
      alertCount (check_alerts_loop today u entries alerts) k today =
        if should_trigger k τ u = true ∧ alertCount alerts k today = 0
        then alertCount alerts k today + 1 else alertCount alerts k today := by
  intro entries
  induction entries with
  | nil => intro alerts _ he; cases he
  | cons e rest ih =>
    intro alerts hnd he
    obtain ⟨atype, τ', msg'⟩ := e
    rw [List.map_cons] at hnd
    rw [check_alerts_loop_cons]
    by_cases hek : atype = k
    · subst hek
      have hknr : atype ∉ rest.map (fun e => e.1) := (List.nodup_cons.mp hnd).1
      have heq : τ' = τ ∧ msg' = msg := by
        rcases List.mem_cons.mp he with h | h
        · have h1 := congrArg (fun p : String × Rat × String => p.2.1) h
          have h2 := congrArg (fun p : String × Rat × String => p.2.2) h
          exact ⟨h1.symm, h2.symm⟩
        · exact absurd (List.mem_map.mpr ⟨_, h, rfl⟩) hknr
      obtain ⟨rfl, rfl⟩ := heq
      rw [alertCount_loop_not_mem today u rest _ atype hknr]
      by_cases hs : should_trigger atype τ' u = true
      · by_cases h0 : alertCount alerts atype today = 0
        · have hex : alertExists alerts atype today = false := by
            rcases hb : alertExists alerts atype today
            · rfl
            · exact absurd ((alertExists_eq_true_iff alerts atype today).mp hb)
                (not_not.mpr h0)
          rw [hs, hex]
          rw [if_pos (show (true && !false) = true from rfl), if_pos ⟨rfl, h0⟩,
            alertCount_append, alertCount_singleton_self]
        · have hex : alertExists alerts atype today = true :=
            (alertExists_eq_true_iff alerts atype today).mpr h0
          rw [hs, hex]
          rw [if_neg (by simp), if_neg (fun hx => h0 hx.2)]
      · have hsf : should_trigger atype τ' u = false :=
          Bool.of_not_eq_true hs
        rw [hsf]
        rw [if_neg (by simp), if_neg (fun hx => absurd hx.1 Bool.false_ne_true)]
    · have her : (k, τ, msg) ∈ rest := by
        rcases List.mem_cons.mp he with h | h
        · exact absurd (congrArg (fun p : String × Rat × String => p.1) h).symm hek
        · exact h
      have hnd' : (rest.map (fun e => e.1)).Nodup := (List.nodup_cons.mp hnd).2
      by_cases hc : (should_trigger atype τ' u && !alertExists alerts atype today) = true
      · have hca : alertCount (alerts ++ [newAlertRow atype τ' msg' u today]) k today
            = alertCount alerts k today := by
          rw [alertCount_append,
            alertCount_singleton_other atype τ' msg' u today k today (fun hx => hek hx.1)]
          rfl
        rw [if_pos hc, ih _ hnd' her, hca]
      · rw [if_neg hc, ih _ hnd' her]

theorem dedupOK_loop (today : String) (u : Usage) :
    ∀ (entries : List (String × Rat × String)) (alerts : List AlertRow),
      DedupOK alerts → DedupOK (check_alerts_loop today u entries alerts) := by
  intro entries
  induction entries with
  | nil => intro alerts h; exact h
  | cons e rest ih =>
    intro alerts h
    obtain ⟨atype, τ, msg⟩ := e
    rw [check_alerts_loop_cons]
    apply ih
    by_cases hc : (should_trigger atype τ u && !alertExists alerts atype today) = true
    · rw [if_pos hc]
      have hex : alertExists alerts atype today = false := (cond_parts hc).2
      rw [DedupOK, List.pairwise_append]
      refine ⟨h, List.pairwise_singleton _ _, ?_⟩
      intro a ha b hb
      rcases List.mem_singleton.mp hb with rfl
      rintro ⟨h1, h2⟩
      have : alertExists alerts atype today = true := by
        unfold alertExists
        rw [List.any_eq_true]
        refine ⟨a, ha, ?_⟩
        rw [Bool.and_eq_true]
        exact ⟨decide_eq_true h1, decide_eq_true h2⟩
      rw [this] at hex
      cases hex
    · rw [if_neg hc]
      exact h

theorem check_alerts_loop_no_insert (today : String) (u : Usage) :
    ∀ (entries : List (String × Rat × String)) (alerts : List AlertRow),
      (∀ e ∈ entries, should_trigger e.1 e.2.1 u = true → alertExists alerts e.1 today = true) →
      check_alerts_loop today u entries alerts = alerts := by
  intro entries
  induction entries with
  | nil => intro alerts _; rfl
  | cons e rest ih =>
    intro alerts hall
    obtain ⟨atype, τ, msg⟩ := e
    rw [check_alerts_loop_cons]
    have hcond : (should_trigger atype τ u && !alertExists alerts atype today) = false := by
      by_cases hs : should_trigger atype τ u = true
      · have hex := hall (atype, τ, msg) (List.mem_cons_self _ _) hs
        rw [hs, hex]
        rfl
      · rw [Bool.of_not_eq_true hs]
        rfl
    rw [if_neg (by rw [hcond]; exact Bool.false_ne_true)]
    exact ih alerts (fun e he => hall e (List.mem_cons.mpr (Or.inr he)))

theorem mem_check_alerts_loop_new (today : String) (u : Usage) :
    ∀ (entries : List (String × Rat × String)) (alerts : List AlertRow) (a : AlertRow),
      a ∈ check_alerts_loop today u entries alerts → a ∉ alerts →
      alertExists alerts a.alert_type today = false
        ∧ a.triggered_date = today ∧ a.key_id = none := by
  intro entries
  induction entries with
  | nil => intro alerts a ha hna; exact absurd ha hna
  | cons e rest ih =>
    intro alerts a ha hna
    obtain ⟨atype, τ, msg⟩ := e
    rw [check_alerts_loop_cons] at ha
    by_cases hc : (should_trigger atype τ u && !alertExists alerts atype today) = true
    · rw [if_pos hc] at ha
      by_cases hmem : a ∈ alerts ++ [newAlertRow atype τ msg u today]
      · rcases List.mem_append.mp hmem with h | h
        · exact absurd h hna
        · rcases List.mem_singleton.mp h with rfl
          exact ⟨(cond_parts hc).2, rfl, rfl⟩
      · have h2 := ih _ a ha hmem
        refine ⟨?_, h2.2⟩
        rcases hb : alertExists alerts a.alert_type today
        · rfl
        · have : alertExists (alerts ++ [newAlertRow atype τ msg u today])
              a.alert_type today = true := by
            rw [alertExists_append, hb]
            rfl
          rw [this] at h2
          cases h2.1
    · rw [if_neg hc] at ha
      exact ih _ a ha hna

/-- C1 (amended): alert dedup is per alert kind and calendar day —
globally, not per credential: the dedup query ignores `key_id` and
inserted rows carry no credential reference.  `check_and_create_alerts`
preserves the invariant that no two alerts share kind and trigger date;
a repeated call the same day with the same usage inserts nothing at all;
any row a repeated call (e.g. with worsening usage) does insert is of a
kind not yet fired that day; for each threshold-table entry the count of
its kind for today follows the fire-once rule; counts of other days are
untouched; and on a day with no alerts yet, each satisfied threshold
inserts exactly one row of its kind. -/
theorem check_and_create_alerts_daily_dedup
    (alerts : List AlertRow) (u u' : Usage) (today : String)
    (hded : DedupOK alerts) :
    DedupOK (check_and_create_alerts alerts u today)
    ∧ check_and_create_alerts (check_and_create_alerts alerts u today) u today
        = check_and_create_alerts alerts u today
    ∧ (∀ e ∈ alerts_to_check,
        alertCount (check_and_create_alerts alerts u today) e.1 today =
          if should_trigger e.1 e.2.1 u = true ∧ alertCount alerts e.1 today = 0
          then alertCount alerts e.1 today + 1 else alertCount alerts e.1 today)
    ∧ (∀ k d, d ≠ today →
        alertCount (check_and_create_alerts alerts u today) k d = alertCount alerts k d)
    ∧ ((∀ a ∈ alerts, a.triggered_date ≠ today) → ∀ e ∈ alerts_to_check,
        should_trigger e.1 e.2.1 u = true →
        alertCount (check_and_create_alerts alerts u today) e.1 today = 1)
    ∧ (∀ a ∈ check_and_create_alerts (check_and_create_alerts alerts u today) u' today,
        a ∉ check_and_create_alerts alerts u today →
        alertExists (check_and_create_alerts alerts u today) a.alert_type today = false
          ∧ a.triggered_date = today ∧ a.key_id = none) := by
  have hcount : ∀ e ∈ alerts_to_check,
      alertCount (check_and_create_alerts alerts u today) e.1 today =
        if should_trigger e.1 e.2.1 u = true ∧ alertCount alerts e.1 today = 0
        then alertCount alerts e.1 today + 1 else alertCount alerts e.1 today := by
    intro e he
    obtain ⟨k, τ, msg⟩ := e
    exact alertCount_loop_mem today u k τ msg alerts_to_check alerts (by decide) he
  refine ⟨dedupOK_loop today u alerts_to_check alerts hded, ?_, hcount, ?_, ?_, ?_⟩
  · apply check_alerts_loop_no_insert
    intro e he hs
    rw [alertExists_eq_true_iff]
    rw [hcount e he]
    by_cases h0 : alertCount alerts e.1 today = 0
    · rw [if_pos ⟨hs, h0⟩]
      omega
    · rw [if_neg (fun hx => h0 hx.2)]
      exact h0
  · intro k d hd
    exact alertCount_loop_other_date today u alerts_to_check alerts k d hd
  · intro hfresh e he hs
    have h0 : alertCount alerts e.1 today = 0 := by
      unfold alertCount
      rw [List.length_eq_zero, List.filter_eq_nil_iff]
      intro a ha
      simp only [Bool.and_eq_true, decide_eq_true_eq, not_and]
      intro _ hdate
      exact hfresh a ha hdate
    rw [hcount e he, if_pos ⟨hs, h0⟩, h0]
  · intro a ha hna
    exact mem_check_alerts_loop_new today u' alerts_to_check _ a ha hna

theorem alert_metric_usage_50 (u : Usage) :
    alert_metric "token_usage_50" u = some (usage_percentage u) := by
  unfold alert_metric
  rw [if_pos (by decide : strContainsSub "token_usage_50" "token_usage" = true)]

theorem alert_metric_usage_75 (u : Usage) :
    alert_metric "token_usage_75" u = some (usage_percentage u) := by
  unfold alert_metric
  rw [if_pos (by decide : strContainsSub "token_usage_75" "token_usage" = true)]

theorem alert_metric_usage_90 (u : Usage) :
    alert_metric "token_usage_90" u = some (usage_percentage u) := by
  unfold alert_metric
  rw [if_pos (by decide : strContainsSub "token_usage_90" "token_usage" = true)]

theorem alert_metric_cost_10 (u : Usage) :
    alert_metric "cost_threshold_10" u = some (u.total_cost.getD 0) := by
  unfold alert_metric
  rw [if_neg (by decide : ¬strContainsSub "cost_threshold_10" "token_usage" = true),
    if_pos (by decide : strContainsSub "cost_threshold_10" "cost_threshold" = true)]

theorem alert_metric_cost_50 (u : Usage) :
    alert_metric "cost_threshold_50" u = some (u.total_cost.getD 0) := by
  unfold alert_metric
  rw [if_neg (by decide : ¬strContainsSub "cost_threshold_50" "token_usage" = true),
    if_pos (by decide : strContainsSub "cost_threshold_50" "cost_threshold" = true)]

theorem alert_metric_burn (u : Usage) :
    alert_metric "high_burn_rate" u = some (u.burn_rate.getD 0) := by
  unfold alert_metric
  rw [if_neg (by decide : ¬strContainsSub "high_burn_rate" "token_usage" = true),
    if_neg (by decide : ¬strContainsSub "high_burn_rate" "cost_threshold" = true),
    if_pos (by decide : strContainsSub "high_burn_rate" "burn_rate" = true)]

theorem should_trigger_of_metric (atype : String) (τ : Rat) (u : Usage) (v : Rat)
    (h : alert_metric atype u = some v) :
    should_trigger atype τ u = decide (τ ≤ v) := by
  unfold should_trigger
  rw [h]

/-- C1 (counterexample): two same-day `check_and_create_alerts` calls
with worsening usage (76% then 91% of the limit) — the first inserts
two rows, the second inserts a third (kind `token_usage_90`), so a
repeated same-day call with worsening usage does insert a new row. -/
theorem check_and_create_alerts_worsening_inserts :
    (check_and_create_alerts [] ⟨some 76, some 100, some 0, some 0⟩ "2024-06-01").length = 2
    ∧ (check_and_create_alerts
        (check_and_create_alerts [] ⟨some 76, some 100, some 0, some 0⟩ "2024-06-01")
        ⟨some 91, some 100, some 0, some 0⟩ "2024-06-01").length = 3 := by
  have hu1 : usage_percentage ⟨some 76, some 100, some 0, some 0⟩ = 76 / 100 := by
    unfold usage_percentage
    norm_num [Option.getD_some]
  have hu2 : usage_percentage ⟨some 91, some 100, some 0, some 0⟩ = 91 / 100 := by
    unfold usage_percentage
    norm_num [Option.getD_some]
  have s50 : should_trigger "token_usage_50" 0.5 ⟨some 76, some 100, some 0, some 0⟩ = true := by
    rw [should_trigger_of_metric _ _ _ _ (alert_metric_usage_50 _), hu1]
    exact decide_eq_true (by norm_num)
  have s75 : should_trigger "token_usage_75" 0.75 ⟨some 76, some 100, some 0, some 0⟩ = true := by
    rw [should_trigger_of_metric _ _ _ _ (alert_metric_usage_75 _), hu1]
    exact decide_eq_true (by norm_num)
  have s90 : should_trigger "token_usage_90" 0.9 ⟨some 76, some 100, some 0, some 0⟩ = false := by
    rw [should_trigger_of_metric _ _ _ _ (alert_metric_usage_90 _), hu1]
    exact decide_eq_false (by norm_num)
  have sc10 : should_trigger "cost_threshold_10" 10.0
      ⟨some 76, some 100, some 0, some 0⟩ = false := by
    rw [should_trigger_of_metric _ _ _ _ (alert_metric_cost_10 _)]
    exact decide_eq_false (by norm_num [Option.getD_some])
  have sc50 : should_trigger "cost_threshold_50" 50.0
      ⟨some 76, some 100, some 0, some 0⟩ = false := by
    rw [should_trigger_of_metric _ _ _ _ (alert_metric_cost_50 _)]
    exact decide_eq_false (by norm_num [Option.getD_some])
  have sbr : should_trigger "high_burn_rate" 500.0
      ⟨some 76, some 100, some 0, some 0⟩ = false := by
    rw [should_trigger_of_metric _ _ _ _ (alert_metric_burn _)]
    exact decide_eq_false (by norm_num [Option.getD_some])
  have hR1 : check_and_create_alerts [] ⟨some 76, some 100, some 0, some 0⟩ "2024-06-01"
      = [newAlertRow "token_usage_50" 0.5 "Token usage exceeded 50%"
           ⟨some 76, some 100, some 0, some 0⟩ "2024-06-01",
         newAlertRow "token_usage_75" 0.75 "Token usage exceeded 75%"
           ⟨some 76, some 100, some 0, some 0⟩ "2024-06-01"] := by
    unfold check_and_create_alerts alerts_to_check
    rw [check_alerts_loop_cons, s50,
      (by decide : alertExists [] "token_usage_50" "2024-06-01" = false),
      if_pos (show (true && !false) = true from rfl), List.nil_append]
    rw [check_alerts_loop_cons, s75,
      (by decide : alertExists
        [newAlertRow "token_usage_50" 0.5 "Token usage exceeded 50%"
          ⟨some 76, some 100, some 0, some 0⟩ "2024-06-01"] "token_usage_75" "2024-06-01"
        = false),
      if_pos (show (true && !false) = true from rfl)]
    rw [check_alerts_loop_cons, s90, if_neg (by simp)]
    rw [check_alerts_loop_cons, sc10, if_neg (by simp)]
    rw [check_alerts_loop_cons, sc50, if_neg (by simp)]
    rw [check_alerts_loop_cons, sbr, if_neg (by simp)]
    rfl
  have s50b : should_trigger "token_usage_50" 0.5 ⟨some 91, some 100, some 0, some 0⟩ = true := by
    rw [should_trigger_of_metric _ _ _ _ (alert_metric_usage_50 _), hu2]
    exact decide_eq_true (by norm_num)
  have s75b : should_trigger "token_usage_75" 0.75 ⟨some 91, some 100, some 0, some 0⟩ = true := by
    rw [should_trigger_of_metric _ _ _ _ (alert_metric_usage_75 _), hu2]
    exact decide_eq_true (by norm_num)
  have s90b : should_trigger "token_usage_90" 0.9 ⟨some 91, some 100, some 0, some 0⟩ = true := by
    rw [should_trigger_of_metric _ _ _ _ (alert_metric_usage_90 _), hu2]
    exact decide_eq_true (by norm_num)
  have sc10b : should_trigger "cost_threshold_10" 10.0
      ⟨some 91, some 100, some 0, some 0⟩ = false := by
    rw [should_trigger_of_metric _ _ _ _ (alert_metric_cost_10 _)]
    exact decide_eq_false (by norm_num [Option.getD_some])
  have sc50b : should_trigger "cost_threshold_50" 50.0
      ⟨some 91, some 100, some 0, some 0⟩ = false := by
    rw [should_trigger_of_metric _ _ _ _ (alert_metric_cost_50 _)]
    exact decide_eq_false (by norm_num [Option.getD_some])
  have sbrb : should_trigger "high_burn_rate" 500.0
      ⟨some 91, some 100, some 0, some 0⟩ = false := by
    rw [should_trigger_of_metric _ _ _ _ (alert_metric_burn _)]
    exact decide_eq_false (by norm_num [Option.getD_some])
  have hR2 : check_and_create_alerts
      [newAlertRow "token_usage_50" 0.5 "Token usage exceeded 50%"
         ⟨some 76, some 100, some 0, some 0⟩ "2024-06-01",
       newAlertRow "token_usage_75" 0.75 "Token usage exceeded 75%"
         ⟨some 76, some 100, some 0, some 0⟩ "2024-06-01"]
      ⟨some 91, some 100, some 0, some 0⟩ "2024-06-01"
      = [newAlertRow "token_usage_50" 0.5 "Token usage exceeded 50%"
           ⟨some 76, some 100, some 0, some 0⟩ "2024-06-01",
         newAlertRow "token_usage_75" 0.75 "Token usage exceeded 75%"
           ⟨some 76, some 100, some 0, some 0⟩ "2024-06-01",
         newAlertRow "token_usage_90" 0.9 "Token usage exceeded 90%"
           ⟨some 91, some 100, some 0, some 0⟩ "2024-06-01"] := by
    unfold check_and_create_alerts alerts_to_check
    rw [check_alerts_loop_cons, s50b,
      (by decide : alertExists
        [newAlertRow "token_usage_50" 0.5 "Token usage exceeded 50%"
           ⟨some 76, some 100, some 0, some 0⟩ "2024-06-01",
         newAlertRow "token_usage_75" 0.75 "Token usage exceeded 75%"
           ⟨some 76, some 100, some 0, some 0⟩ "2024-06-01"] "token_usage_50" "2024-06-01"
        = true),
      if_neg (by simp)]
    rw [check_alerts_loop_cons, s75b,
      (by decide : alertExists
        [newAlertRow "token_usage_50" 0.5 "Token usage exceeded 50%"
           ⟨some 76, some 100, some 0, some 0⟩ "2024-06-01",
         newAlertRow "token_usage_75" 0.75 "Token usage exceeded 75%"
           ⟨some 76, some 100, some 0, some 0⟩ "2024-06-01"] "token_usage_75" "2024-06-01"
        = true),
      if_neg (by simp)]
    rw [check_alerts_loop_cons, s90b,
      (by decide : alertExists
        [newAlertRow "token_usage_50" 0.5 "Token usage exceeded 50%"
           ⟨some 76, some 100, some 0, some 0⟩ "2024-06-01",
         newAlertRow "token_usage_75" 0.75 "Token usage exceeded 75%"
           ⟨some 76, some 100, some 0, some 0⟩ "2024-06-01"] "token_usage_90" "2024-06-01"
        = false),
      if_pos (show (true && !false) = true from rfl)]
    rw [check_alerts_loop_cons, sc10b, if_neg (by simp)]
    rw [check_alerts_loop_cons, sc50b, if_neg (by simp)]
    rw [check_alerts_loop_cons, sbrb, if_neg (by simp)]
    rfl
  constructor
  · rw [hR1]
    rfl
  · rw [hR1, hR2]
    rfl

/-- Witness for C1's amended claim at a concrete state: starting from an
empty alert table, re-evaluating the same usage the same day changes
nothing, and the dedup invariant holds afterwards. -/
theorem check_and_create_alerts_daily_dedup_witness :
    check_and_create_alerts
        (check_and_create_alerts [] ⟨some 76, some 100, some 0, some 0⟩ "2024-06-01")
        ⟨some 76, some 100, some 0, some 0⟩ "2024-06-01"
      = check_and_create_alerts [] ⟨some 76, some 100, some 0, some 0⟩ "2024-06-01"
    ∧ DedupOK (check_and_create_alerts [] ⟨some 76, some 100, some 0, some 0⟩ "2024-06-01") := by
  have h := check_and_create_alerts_daily_dedup []
    ⟨some 76, some 100, some 0, some 0⟩ ⟨some 91, some 100, some 0, some 0⟩
    "2024-06-01" List.Pairwise.nil
  exact ⟨h.2.1, h.1⟩

/-- C10 (counterexample): with `token_limit` absent from the usage dict
the code defaults it to `1` (not 0), so the usage fraction equals the
raw token count and all three usage alerts fire — the claim that an
absent limit means no usage alert can fire is false. -/
theorem check_and_create_alerts_absent_limit_fires :
    (check_and_create_alerts [] ⟨some 100, none, some 0, some 0⟩ "2024-06-01").map
        (fun a => a.alert_type)
      = ["token_usage_50", "token_usage_75", "token_usage_90"] := by
  have hu : usage_percentage ⟨some 100, none, some 0, some 0⟩ = 100 := by
    unfold usage_percentage
    norm_num [Option.getD_some, Option.getD_none]
  have s50 : should_trigger "token_usage_50" 0.5 ⟨some 100, none, some 0, some 0⟩ = true := by
    rw [should_trigger_of_metric _ _ _ _ (alert_metric_usage_50 _), hu]
    exact decide_eq_true (by norm_num)
  have s75 : should_trigger "token_usage_75" 0.75 ⟨some 100, none, some 0, some 0⟩ = true := by
    rw [should_trigger_of_metric _ _ _ _ (alert_metric_usage_75 _), hu]
    exact decide_eq_true (by norm_num)
  have s90 : should_trigger "token_usage_90" 0.9 ⟨some 100, none, some 0, some 0⟩ = true := by
    rw [should_trigger_of_metric _ _ _ _ (alert_metric_usage_90 _), hu]
    exact decide_eq_true (by norm_num)
  have sc10 : should_trigger "cost_threshold_10" 10.0
      ⟨some 100, none, some 0, some 0⟩ = false := by
    rw [should_trigger_of_metric _ _ _ _ (alert_metric_cost_10 _)]
    exact decide_eq_false (by norm_num [Option.getD_some])
  have sc50 : should_trigger "cost_threshold_50" 50.0
      ⟨some 100, none, some 0, some 0⟩ = false := by
    rw [should_trigger_of_metric _ _ _ _ (alert_metric_cost_50 _)]
    exact decide_eq_false (by norm_num [Option.getD_some])
  have sbr : should_trigger "high_burn_rate" 500.0
      ⟨some 100, none, some 0, some 0⟩ = false := by
    rw [should_trigger_of_metric _ _ _ _ (alert_metric_burn _)]
    exact decide_eq_false (by norm_num [Option.getD_some])
  unfold check_and_create_alerts alerts_to_check
  rw [check_alerts_loop_cons, s50,
    (by decide : alertExists [] "token_usage_50" "2024-06-01" = false),
    if_pos (show (true && !false) = true from rfl), List.nil_append]
  rw [check_alerts_loop_cons, s75,
    (by decide : alertExists
      [newAlertRow "token_usage_50" 0.5 "Token usage exceeded 50%"
        ⟨some 100, none, some 0, some 0⟩ "2024-06-01"] "token_usage_75" "2024-06-01" = false),
    if_pos (show (true && !false) = true from rfl), List.singleton_append]
  rw [check_alerts_loop_cons, s90,
    (by decide : alertExists
      [newAlertRow "token_usage_50" 0.5 "Token usage exceeded 50%"
         ⟨some 100, none, some 0, some 0⟩ "2024-06-01",
       newAlertRow "token_usage_75" 0.75 "Token usage exceeded 75%"
         ⟨some 100, none, some 0, some 0⟩ "2024-06-01"] "token_usage_90" "2024-06-01" = false),
    if_pos (show (true && !false) = true from rfl)]
  rw [check_alerts_loop_cons, sc10, if_neg (by simp)]
  rw [check_alerts_loop_cons, sc50, if_neg (by simp)]
  rw [check_alerts_loop_cons, sbr, if_neg (by simp)]
  rfl

/-- C10 (amended): `check_and_create_alerts` is total in the token
limit and never divides by zero — when `token_limit` is present and
positive the fraction is `tokens_used / token_limit`, when present and
non-positive the fraction is 0 and no usage alert is inserted on any
date, and when absent it defaults to 1 so the fraction is the raw
`tokens_used`; the cost and burn-rate thresholds are evaluated from
`total_cost` and `burn_rate` alone, independently of `token_limit`. -/
theorem check_and_create_alerts_token_limit_total
    (u u' : Usage) (alerts : List AlertRow) (today : String) (L : Rat) :
    (u.token_limit = some L → 0 < L → usage_percentage u = u.tokens_used.getD 0 / L)
    ∧ (u.token_limit = some L → L ≤ 0 → usage_percentage u = 0)
    ∧ (u.token_limit = none → usage_percentage u = u.tokens_used.getD 0)
    ∧ (u.token_limit = some L → L ≤ 0 →
        ∀ e ∈ alerts_to_check, strContainsSub e.1 "token_usage" = true →
        ∀ d, alertCount (check_and_create_alerts alerts u today) e.1 d
            = alertCount alerts e.1 d)
    ∧ (u.total_cost = u'.total_cost → u.burn_rate = u'.burn_rate →
        ∀ e ∈ alerts_to_check,
          (strContainsSub e.1 "cost_threshold" || strContainsSub e.1 "burn_rate") = true →
          alertCount (check_and_create_alerts alerts u today) e.1 today
            = alertCount (check_and_create_alerts alerts u' today) e.1 today) := by
  have hzero : u.token_limit = some L → L ≤ 0 → usage_percentage u = 0 := by
    intro h hL
    simp only [usage_percentage, h, Option.getD_some]
    rw [if_neg (not_lt.mpr hL)]
  refine ⟨?_, hzero, ?_, ?_, ?_⟩
  · intro h hL
    simp only [usage_percentage, h, Option.getD_some]
    rw [if_pos hL]
  · intro h
    simp only [usage_percentage, h, Option.getD_none]
    rw [if_pos (by norm_num : (0 : Rat) < 1)]
    exact div_one _
  · intro h hL e he hsub d
    unfold alerts_to_check at he
    have husage : usage_percentage u = 0 := hzero h hL
    have step : ∀ (k : String) (τ : Rat) (msg : String),
        (k, τ, msg) ∈ alerts_to_check → alert_metric k u = some (usage_percentage u) →
        0 < τ → alertCount (check_and_create_alerts alerts u today) k d
          = alertCount alerts k d := by
      intro k τ msg hmem hmetric hτ
      have hs : should_trigger k τ u = false := by
        rw [should_trigger_of_metric _ _ _ _ hmetric, husage]
        exact decide_eq_false (not_le.mpr hτ)
      unfold check_and_create_alerts
      by_cases hd : d = today
      · subst hd
        rw [alertCount_loop_mem d u k τ msg alerts_to_check alerts (by decide) hmem]
        rw [if_neg (fun hx => by rw [hs] at hx; exact Bool.false_ne_true hx.1)]
      · rw [alertCount_loop_other_date today u alerts_to_check alerts k d hd]
    rcases List.mem_cons.mp he with rfl | he
    · exact step "token_usage_50" 0.5 "Token usage exceeded 50%" (by simp [alerts_to_check])
        (alert_metric_usage_50 u) (by norm_num)
    rcases List.mem_cons.mp he with rfl | he
    · exact step "token_usage_75" 0.75 "Token usage exceeded 75%" (by simp [alerts_to_check])
        (alert_metric_usage_75 u) (by norm_num)
    rcases List.mem_cons.mp he with rfl | he
    · exact step "token_usage_90" 0.9 "Token usage exceeded 90%" (by simp [alerts_to_check])
        (alert_metric_usage_90 u) (by norm_num)
    rcases List.mem_cons.mp he with rfl | he
    · exact absurd hsub (by decide)
    rcases List.mem_cons.mp he with rfl | he
    · exact absurd hsub (by decide)
    rcases List.mem_cons.mp he with rfl | he
    · exact absurd hsub (by decide)
    cases he
  · intro hcost hburn e he hsub
    unfold alerts_to_check at he
    have step : ∀ (k : String) (τ : Rat) (msg : String) (v v' : Rat),
        (k, τ, msg) ∈ alerts_to_check → alert_metric k u = some v →
        alert_metric k u' = some v' → v = v' →
        alertCount (check_and_create_alerts alerts u today) k today
          = alertCount (check_and_create_alerts alerts u' today) k today := by
      intro k τ msg v v' hmem hm hm' hv
      have hs : should_trigger k τ u = should_trigger k τ u' := by
        rw [should_trigger_of_metric _ _ _ _ hm, should_trigger_of_metric _ _ _ _ hm', hv]
      unfold check_and_create_alerts
      rw [alertCount_loop_mem today u k τ msg alerts_to_check alerts (by decide) hmem,
        alertCount_loop_mem today u' k τ msg alerts_to_check alerts (by decide) hmem, hs]
    rcases List.mem_cons.mp he with rfl | he
    · exact absurd hsub (by decide)
    rcases List.mem_cons.mp he with rfl | he
    · exact absurd hsub (by decide)
    rcases List.mem_cons.mp he with rfl | he
    · exact absurd hsub (by decide)
    rcases List.mem_cons.mp he with rfl | he
    · exact step "cost_threshold_10" 10.0 "Monthly cost exceeded $10"
        (u.total_cost.getD 0) (u'.total_cost.getD 0) (by simp [alerts_to_check])
        (alert_metric_cost_10 u) (alert_metric_cost_10 u') (by rw [hcost])
    rcases List.mem_cons.mp he with rfl | he
    · exact step "cost_threshold_50" 50.0 "Monthly cost exceeded $50"
        (u.total_cost.getD 0) (u'.total_cost.getD 0) (by simp [alerts_to_check])
        (alert_metric_cost_50 u) (alert_metric_cost_50 u') (by rw [hcost])
    rcases List.mem_cons.mp he with rfl | he
    · exact step "high_burn_rate" 500.0 "High burn rate detected (>500 tokens/min)"
        (u.burn_rate.getD 0) (u'.burn_rate.getD 0) (by simp [alerts_to_check])
        (alert_metric_burn u) (alert_metric_burn u') (by rw [hburn])
    cases he

/-- Witness for C10's amended claim at a concrete negative limit: the
usage fraction is 0 and no `token_usage_90` alert is inserted. -/
theorem check_and_create_alerts_token_limit_total_witness :
    usage_percentage ⟨some 50, some (-5), some 0, some 0⟩ = 0
    ∧ alertCount (check_and_create_alerts []
          ⟨some 50, some (-5), some 0, some 0⟩ "2024-06-01")
        "token_usage_90" "2024-06-01"
      = alertCount [] "token_usage_90" "2024-06-01" := by
  have h := check_and_create_alerts_token_limit_total
    ⟨some 50, some (-5), some 0, some 0⟩ ⟨some 50, some (-5), some 0, some 0⟩
    [] "2024-06-01" (-5)
  refine ⟨h.2.1 rfl (by norm_num), ?_⟩
  exact h.2.2.2.1 rfl (by norm_num)
    ("token_usage_90", 0.9, "Token usage exceeded 90%") (by simp [alerts_to_check]) (by decide) "2024-06-01"

theorem astimezone_tz_offset (x : DateTime) (o : Int) : (astimezone x o).tz_offset = some o := by
  unfold astimezone
  split
  · rename_i h
    exact h
  · rfl

theorem next_reset_if_tz_offset (y : Int) (m : Nat) (off : Int) :
    (if m = 12 then (⟨y + 1, 1, 1, 0, 0, some off⟩ : DateTime)
     else ⟨y, m + 1, 1, 0, 0, some off⟩).tz_offset = some off := by
  split <;> rfl

/-- C8: `get_next_reset_time` resolves an unknown timezone name by
falling back to UTC (total, never an error); for a known timezone whose
offset the caller already carries (or a naive caller) it returns exactly
midnight of the first day of the next calendar month in that zone, with
December rolling over to January 1 of the next year; and an aware
caller always gets the result expressed back in its own original
offset, a naive caller in the resolved zone's offset. -/
theorem get_next_reset_time_spec (t : DateTime) (crh : Option Nat) (s : String) :
    (lookupTz s = none →
      get_next_reset_time t crh s = get_next_reset_time t crh "UTC")
    ∧ (∀ off, lookupTz s = some off → (t.tz_offset = some off ∨ t.tz_offset = none) →
        get_next_reset_time t crh s =
          if t.month = 12 then ⟨t.year + 1, 1, 1, 0, 0, some off⟩
          else ⟨t.year, t.month + 1, 1, 0, 0, some off⟩)
    ∧ (∀ o, t.tz_offset = some o → (get_next_reset_time t crh s).tz_offset = some o)
    ∧ (t.tz_offset = none →
        (get_next_reset_time t crh s).tz_offset = some ((lookupTz s).getD 0))
    ∧ get_next_reset_time ⟨2024, 3, 15, 0, 0, some 540⟩ crh "UTC"
        = ⟨2024, 4, 1, 9, 0, some 540⟩ := by
  refine ⟨?_, ?_, ?_, ?_, rfl⟩
  · intro h
    unfold get_next_reset_time
    rw [h]
    rfl
  · intro off hoff hcase
    unfold get_next_reset_time
    rw [hoff]
    rcases hcase with hco | hco
    · rw [hco]
      dsimp only [Option.getD_some]
      rw [if_neg (fun hne : off ≠ off => hne rfl)]
      unfold astimezone
      rw [if_pos hco]
    · rw [hco]
      dsimp only [Option.getD_some]
  · intro o ho
    unfold get_next_reset_time
    rw [ho]
    dsimp only
    by_cases hoo : o = (lookupTz s).getD 0
    · rw [if_neg (fun hne => hne hoo), next_reset_if_tz_offset, hoo]
    · rw [if_pos hoo, astimezone_tz_offset]
  · intro h
    unfold get_next_reset_time
    rw [h]
    dsimp only
    rw [next_reset_if_tz_offset]

/-- Witness for C8: 2024-03-15 UTC yields 2024-04-01T00:00 UTC,
2024-12-20 UTC rolls over to 2025-01-01T00:00, and the unknown name
`Mars/Olympus` behaves exactly like UTC. -/
theorem get_next_reset_time_spec_witness :
    get_next_reset_time ⟨2024, 3, 15, 0, 0, some 0⟩ none "UTC"
      = ⟨2024, 4, 1, 0, 0, some 0⟩
    ∧ get_next_reset_time ⟨2024, 12, 20, 0, 0, some 0⟩ none "UTC"
      = ⟨2025, 1, 1, 0, 0, some 0⟩
    ∧ get_next_reset_time ⟨2024, 3, 15, 0, 0, some 0⟩ none "Mars/Olympus"
      = get_next_reset_time ⟨2024, 3, 15, 0, 0, some 0⟩ none "UTC" := by
  have h1 := (get_next_reset_time_spec ⟨2024, 3, 15, 0, 0, some 0⟩ none "UTC").2.1
    0 rfl (Or.inl rfl)
  have h2 := (get_next_reset_time_spec ⟨2024, 12, 20, 0, 0, some 0⟩ none "UTC").2.1
    0 rfl (Or.inl rfl)
  have h3 := (get_next_reset_time_spec ⟨2024, 3, 15, 0, 0, some 0⟩ none "Mars/Olympus").1 rfl
  refine ⟨?_, ?_, h3⟩
  · rw [h1]
    rfl
  · rw [h2]
    rfl

end UsageMonitor
